import Mathlib

/-!
# Verification of the chanopt detection-and-classification engine

Shallow embedding of `pkg/analyzer` (detect / classify / report) of the
chanopt repository, together with proofs about the claims of its
specification.

The embedding models the fragment of the Go syntax tree (`go/ast`) that the
analyzer inspects, the type-information query interface (`go/types` via
`pass.TypesInfo`), and the three analyzer stages:

* `detect`   — `analyzer.go`, function `detect` (plus `returnsChan`,
  `extractMakeChan`, `collectSends`);
* `classify` — `analyzer.go`, function `classify` (plus the safety gates
  `containsMultiCaseSelect`, `containsIOCalls`, `rangesOverChannel` and
  `extractIndicators`);
* `runFile`  — the per-file body of `run` in `analyzer.go`, with the
  diagnostic kept as structured components instead of a formatted string.
-/

set_option maxHeartbeats 1000000
set_option maxRecDepth 8192

namespace Chanopt

/-- An occurrence of an identifier in the tree (`*ast.Ident`).  `uid` is the
node identity used to key the `ObjectOf` lookup of `pass.TypesInfo` (distinct
occurrences of the same name are distinct keys); `pos` is the source
position (`token.Pos`). -/
structure Ident where
  name : String
  uid : Nat
  pos : Nat
deriving DecidableEq, Repr

/-- The resolved (underlying) type of an expression, as far as the analyzer
inspects it: the analyzer only ever asks whether `Type.Underlying()` is a
`*types.Chan`. -/
inductive GoType where
  | chan : GoType
  | other : GoType
deriving DecidableEq, Repr

/-- The object an identifier resolves to (`types.Object`).  The analyzer
distinguishes package names (`*types.PkgName`, carrying the imported
package's path) from everything else; for variables we record the type and
whether the variable is a function parameter.  The `isParam` flag is
information the host type-checker has, but nothing in the analyzer's code
reads it. -/
inductive GoObject where
  | pkgName (path : String) : GoObject
  | varObj (isParam : Bool) (ty : GoType) : GoObject
deriving DecidableEq, Repr

/-- Literal kinds (`token.Token` as used in `ast.BasicLit.Kind`). -/
inductive LitKind where
  | int : LitKind
  | other : LitKind
deriving DecidableEq, Repr

/-- Binary operators; the analyzer only distinguishes `token.REM`. -/
inductive BinOp where
  | rem : BinOp
  | otherOp : BinOp
deriving DecidableEq, Repr

mutual

/-- Expressions (`ast.Expr`).  `call` carries its own source position;
`funcLit` keeps only the body (`ast.FuncLit.Body`, possibly nil), since the
analyzer never inspects a function literal's type. -/
inductive Expr where
  | identE (id : Ident) : Expr
  | selector (x : Expr) (sel : String) : Expr
  | call (pos : Nat) (fn : Expr) (args : List Expr) : Expr
  | basicLit (kind : LitKind) (value : String) : Expr
  | binary (op : BinOp) (lhs rhs : Expr) : Expr
  | indexE (x : Expr) (ix : Expr) : Expr
  | chanTypeE (elem : Expr) : Expr
  | funcLit (body : Option (List Stmt)) : Expr
  | otherE : Expr

/-- Statements (`ast.Stmt`).  `incDec` with `isInc = true` is `x++`
(`token.INC`); `rangeStmt` carries key, value, range operand and body;
`forStmt` carries init, condition, post and body; `send` carries its source
position. -/
inductive Stmt where
  | assign (lhs rhs : List Expr) : Stmt
  | goStmt (fn : Expr) (args : List Expr) : Stmt
  | send (pos : Nat) (ch val : Expr) : Stmt
  | rangeStmt (key val : Option Expr) (x : Expr) (body : List Stmt) : Stmt
  | forStmt (ini : Option Stmt) (cond : Option Expr) (post : Option Stmt)
      (body : List Stmt) : Stmt
  | incDec (x : Expr) (isInc : Bool) : Stmt
  | selectStmt (clauses : List CommClause) : Stmt
  | exprStmt (e : Expr) : Stmt
  | deferStmt (callE : Expr) : Stmt
  | ret (results : List Expr) : Stmt
  | block (stmts : List Stmt) : Stmt
  | otherStmt : Stmt

/-- A clause of a `select` statement (`ast.CommClause`): `comm = none` is a
`default` clause. -/
inductive CommClause where
  | mk (comm : Option Stmt) (body : List Stmt) : CommClause

end

/-- A node of the tree, as visited by `ast.Inspect`. -/
inductive Node where
  | expr (e : Expr) : Node
  | stmt (s : Stmt) : Node

mutual

/-- All nodes of an expression, itself included, in visit order: the
node set traversed by `ast.Inspect` started at the expression. -/
def exprNodes : Expr → List Node
  | .identE i => [.expr (.identE i)]
  | .selector x sel => .expr (.selector x sel) :: exprNodes x
  | .call pos fn args => .expr (.call pos fn args) :: (exprNodes fn ++ exprListNodes args)
  | .basicLit k v => [.expr (.basicLit k v)]
  | .binary op l r => .expr (.binary op l r) :: (exprNodes l ++ exprNodes r)
  | .indexE x ix => .expr (.indexE x ix) :: (exprNodes x ++ exprNodes ix)
  | .chanTypeE elem => .expr (.chanTypeE elem) :: exprNodes elem
  | .funcLit body => .expr (.funcLit body) :: optBodyNodes body
  | .otherE => [.expr .otherE]

def exprListNodes : List Expr → List Node
  | [] => []
  | e :: es => exprNodes e ++ exprListNodes es

def optExprNodes : Option Expr → List Node
  | none => []
  | some e => exprNodes e

def stmtNodes : Stmt → List Node
  | .assign lhs rhs => .stmt (.assign lhs rhs) :: (exprListNodes lhs ++ exprListNodes rhs)
  | .goStmt fn args => .stmt (.goStmt fn args) :: (exprNodes fn ++ exprListNodes args)
  | .send pos ch v => .stmt (.send pos ch v) :: (exprNodes ch ++ exprNodes v)
  | .rangeStmt key val x body =>
      .stmt (.rangeStmt key val x body) ::
        (optExprNodes key ++ optExprNodes val ++ exprNodes x ++ stmtListNodes body)
  | .forStmt ini cond post body =>
      .stmt (.forStmt ini cond post body) ::
        (optStmtNodes ini ++ optExprNodes cond ++ optStmtNodes post ++ stmtListNodes body)
  | .incDec x b => .stmt (.incDec x b) :: exprNodes x
  | .selectStmt clauses => .stmt (.selectStmt clauses) :: commListNodes clauses
  | .exprStmt e => .stmt (.exprStmt e) :: exprNodes e
  | .deferStmt c => .stmt (.deferStmt c) :: exprNodes c
  | .ret results => .stmt (.ret results) :: exprListNodes results
  | .block stmts => .stmt (.block stmts) :: stmtListNodes stmts
  | .otherStmt => [.stmt .otherStmt]

def stmtListNodes : List Stmt → List Node
  | [] => []
  | s :: ss => stmtNodes s ++ stmtListNodes ss

def optStmtNodes : Option Stmt → List Node
  | none => []
  | some s => stmtNodes s

def commNodes : CommClause → List Node
  | .mk comm body => optStmtNodes comm ++ stmtListNodes body

def commListNodes : List CommClause → List Node
  | [] => []
  | c :: cs => commNodes c ++ commListNodes cs

def optBodyNodes : Option (List Stmt) → List Node
  | none => []
  | some body => stmtListNodes body

end

/-- A top-level declaration (`ast.Decl`).  For a function declaration we keep
the body (`fn.Body`, nil possible) and the declared result list
(`fn.Type.Results`, nil possible), the latter flattened to the list of the
result fields' type expressions. -/
inductive Decl where
  | funcDecl (body : Option (List Stmt)) (results : Option (List Expr)) : Decl
  | otherDecl : Decl

/-- The host driver's analysis pass (`*analysis.Pass`): the parsed files, the
`TypesInfo.Types` query (already composed with `.Type.Underlying()`, which is
all the analyzer asks of it) and the `TypesInfo.ObjectOf` query, keyed by the
identifier occurrence. -/
structure Pass where
  files : List (List Decl)
  types : Expr → Option GoType
  objectOf : Ident → Option GoObject

/-- The eleven pattern values (`patterns.go`). -/
inductive Pattern where
  | Unknown | IDGenerator | RoundRobin | RateLimiter | ConfigBroadcaster
  | BoundedIterator | CircuitBreaker | ChanSemaphore | Singleton
  | FixedFanIn | ChanTicker
deriving DecidableEq, Repr

/-- Replacement metadata for a pattern (`patterns.go`, `PatternSpec`). -/
structure PatternSpec where
  Replacement : String
  Speedup : String
  Rationale : String
deriving DecidableEq, Repr

/-- The pattern-metadata registry (`patterns.go`, `Registry`).  The Go map
has no entry for `Unknown`; looking it up yields the zero value, which is
what the `Unknown` arm returns here. -/
def Registry : Pattern → PatternSpec
  | .IDGenerator =>
      ⟨"atomic.AddInt64", "~38x",
       "counter in infinite loop needs only an atomic increment"⟩
  | .RoundRobin =>
      ⟨"sync.Mutex + index", "~10x",
       "modular index cycling needs only a guarded counter"⟩
  | .RateLimiter =>
      ⟨"sync.Mutex + token bucket", "~8x",
       "ticker-refilled token slot needs only mutex-guarded math"⟩
  | .ConfigBroadcaster =>
      ⟨"atomic.Pointer / atomic.Value", "~80x",
       "latest-value store needs only an atomic pointer swap"⟩
  | .BoundedIterator =>
      ⟨"range-over-func (Go 1.23+) or Next() iterator", "~40x",
       "finite iteration needs no goroutine or channel"⟩
  | .CircuitBreaker =>
      ⟨"atomic.Int32", "~127x",
       "state enum in buffered chan(1) needs only an atomic int"⟩
  | .ChanSemaphore =>
      ⟨"x/sync/semaphore.Weighted", "~8x",
       "concurrency limiting chan struct\x7b\x7d is slower than semaphore"⟩
  | .Singleton =>
      ⟨"sync.Once + value field", "~19x",
       "one-time value served via channel needs only sync.Once"⟩
  | .FixedFanIn =>
      ⟨"sync.WaitGroup + append to slice", "~8x",
       "merging 2-3 fixed goroutines does not need a shared channel"⟩
  | .ChanTicker =>
      ⟨"time.NewTicker directly", "~15x",
       "wrapping time.Sleep in goroutine+channel duplicates time.Ticker"⟩
  | .Unknown => ⟨"", "", ""⟩

/-- A detected producer (`analyzer.go`, `channelProducer`).  `funcLitBody`
is the `Body` field of the stored function literal (the analyzer inspects
nothing else of it); `makePos` is the `token.Pos` recorded for the
channel-creating assignment; `bufSize` is the parsed buffer size (`int`). -/
structure ChannelProducer where
  sends : List Stmt
  funcLitBody : Option (List Stmt)
  chanIdent : Ident
  chanType : Option GoType
  makePos : Nat
  bufSize : Int

/-- Model of `returnsChan` (`analyzer.go`): some declared result type is
syntactically a channel type. -/
def returnsChan (results : List Expr) : Bool :=
  results.any fun t =>
    match t with
    | .chanTypeE _ => true
    | _ => false

/-- Two's-complement reduction into the signed 64-bit range: the arithmetic
of Go's `int` (64 bits on the supported targets), in which `extractMakeChan`
accumulates the buffer size. -/
def wrap64 (n : Int) : Int :=
  (n + 2 ^ 63) % 2 ^ 64 - 2 ^ 63

/-- The buffer-size computation of `extractMakeChan` (`analyzer.go`): if a
second argument exists and is an integer literal, fold over the characters
of its text with `buf = buf*10 + int(c - '0')`, each step in Go's wrapping
64-bit `int` arithmetic; otherwise 0.  (The fold is Go's, applied to
whatever the literal's text is — decimal or not; wrapping the whole step
once is the same as wrapping the multiply and the add separately, since
reduction mod `2 ^ 64` is a ring homomorphism.) -/
def parseBufSize (args : List Expr) : Int :=
  match args.get? 1 with
  | some (Expr.basicLit LitKind.int v) =>
      v.data.foldl
        (fun b c => wrap64 (b * 10 + ((c.toNat : Int) - ('0'.toNat : Int)))) 0
  | _ => 0

/-- Model of `extractMakeChan` (`analyzer.go`): recognizes a single-target assignment
`id := make(chan T [, N])` — one LHS which is an identifier, one RHS which is
a call of the identifier `make` whose first argument is a channel-type
expression.  Returns the identifier, the statement position `s.Pos()` (for an
assignment this is `Lhs[0].Pos()`, hence `id.pos`), and the buffer size.
The Go function is only ever applied to assignment statements; every other
statement shape yields `none`. -/
def extractMakeChan : Stmt → Option (Ident × Nat × Int)
  | .assign [.identE id] [.call _ (.identE f) args] =>
      if f.name = "make" then
        match args with
        | .chanTypeE _ :: _ => some (id, id.pos, parseBufSize args)
        | _ => none
      else none
  | _ => none

/-- Model of `collectSends` (`analyzer.go`): all send statements anywhere inside the
function literal's body whose channel operand is a bare identifier with the
detected channel's name (the literal's type part cannot contain statements,
so walking the body is walking the literal). -/
def collectSends (flBody : Option (List Stmt)) (chanName : String) : List Stmt :=
  (optBodyNodes flBody).filterMap fun n =>
    match n with
    | .stmt (.send pos (.identE i) v) =>
        if i.name = chanName then some (.send pos (.identE i) v) else none
    | _ => none

/-- The top-level statement loop of `detect` (`analyzer.go`): fold over
`fn.Body.List`, recording the channel-creating assignment (each valid one
overwrites the previously recorded one) and appending every `go`
statement's call (`Fun`, `Args`). -/
def scanStep (acc : Option (Ident × Nat × Int) × List (Expr × List Expr))
    (stmt : Stmt) : Option (Ident × Nat × Int) × List (Expr × List Expr) :=
  -- one iteration of the `switch` in `detect`'s top-level loop

  match stmt with
  | .assign lhs rhs =>
      (match extractMakeChan (.assign lhs rhs) with
       | some r => (some r, acc.2)
       | none => acc)
  | .goStmt fn args => (acc.1, acc.2 ++ [(fn, args)])
  | _ => acc

/-- The whole top-level loop of `detect`, as a fold of `scanStep`. -/
def scanTopLevel (stmts : List Stmt) :
    Option (Ident × Nat × Int) × List (Expr × List Expr) :=
  stmts.foldl scanStep (none, [])

/-- Model of `detect` (`analyzer.go`): scan a file's declarations for the generator
idiom.  A function declaration qualifies when its body and result list are
present, some result type is syntactically a channel type, its top-level
scan finds a channel-creating assignment and exactly one `go` statement,
that statement spawns a function literal, and the literal's body contains at
least one send on the detected channel name.  `chanType` is
`obj.Type().(*types.Chan)` for the channel identifier's object. -/
def detect (pass : Pass) (file : List Decl) : List ChannelProducer :=
  file.flatMap fun decl =>
    match decl with
    | .funcDecl (some body) (some results) =>
        if returnsChan results then
          match scanTopLevel body with
          | (some (chanVar, makePos, bufSize), [(fn, _)]) =>
              match fn with
              | .funcLit flBody =>
                  let sends := collectSends flBody chanVar.name
                  if sends.isEmpty then []
                  else
                    let ct : Option GoType :=
                      match pass.objectOf chanVar with
                      | some (.varObj _ .chan) => some .chan
                      | _ => none
                    [{ sends := sends, funcLitBody := flBody,
                       chanIdent := chanVar, chanType := ct,
                       makePos := makePos, bufSize := bufSize }]
              | _ => []
          | _ => []
        else []
    | _ => []

/-- The per-node test of `containsMultiCaseSelect` (`analyzer.go`): the node
is a `select` statement with at least two clauses (a nil select body is the
empty clause list). -/
def multiCaseSelectHit : Node → Bool
  | .stmt (.selectStmt clauses) => decide (2 ≤ clauses.length)
  | _ => false

/-- Model of `containsMultiCaseSelect` (`analyzer.go`): some node of the body passes
`multiCaseSelectHit`. -/
def containsMultiCaseSelect (body : List Stmt) : Bool :=
  (stmtListNodes body).any multiCaseSelectHit

/-- The package paths of the I/O gate (`analyzer.go`, `containsIO`). -/
def ioPkgs : List String := ["net", "net/http", "os", "io", "database/sql"]

/-- The per-node test of `containsIO` (`analyzer.go`): a call `x.f(...)`
where `x` is an identifier resolving to a package name whose import path is
one of `ioPkgs`. -/
def ioCallHit (pass : Pass) : Node → Bool
  | .expr (.call _ (.selector (.identE i) _) _) =>
      (match pass.objectOf i with
       | some (.pkgName p) => ioPkgs.contains p
       | _ => false)
  | _ => false

/-- Model of `containsIO` (`analyzer.go`): some node of the body passes
`ioCallHit`. -/
def containsIOCalls (body : List Stmt) (pass : Pass) : Bool :=
  (stmtListNodes body).any (ioCallHit pass)

/-- The per-node test of `rangesOverChannel` (`analyzer.go`): a range
statement whose operand is a bare identifier, whose recorded type has
channel underlying type, and whose identifier resolves to some object.
(The code's comments speak of parameters, but no parameter check is
performed: any object qualifies.) -/
def rangeGateHit (pass : Pass) : Node → Bool
  | .stmt (.rangeStmt _ _ (.identE i) _) =>
      (match pass.types (.identE i) with
       | some .chan => (pass.objectOf i).isSome
       | _ => false)
  | _ => false

/-- Model of `rangesOverChannel` (`analyzer.go`): some node of the body passes
`rangeGateHit`. -/
def rangesOverChannel (body : List Stmt) (pass : Pass) : Bool :=
  (stmtListNodes body).any (rangeGateHit pass)

/-- The indicator vector (`analyzer.go`, `indicators`). -/
structure Indicators where
  hasIncrement : Bool := false
  hasModulo : Bool := false
  hasIndexExpr : Bool := false
  hasRange : Bool := false
  hasClose : Bool := false
  hasTimeSleep : Bool := false
  hasTimeTicker : Bool := false
  infiniteLoop : Bool := false
deriving DecidableEq, Repr

/-- An expression that is syntactically a binary expression with the
remainder operator at its root. -/
def isRemExpr : Expr → Bool
  | .binary .rem _ _ => true
  | _ => false

/-- One visitor step of `extractIndicators` (`analyzer.go`): what the
`ast.Inspect` callback does to the indicator record at one node. -/
def indicatorStep (pass : Pass) (chanName : String) (ind : Indicators) :
    Node → Indicators
  | .stmt (.incDec _ isInc) =>
      if isInc then { ind with hasIncrement := true } else ind
  | .stmt (.assign _ rhs) =>
      if rhs.any isRemExpr then { ind with hasModulo := true } else ind
  | .expr (.indexE _ _) => { ind with hasIndexExpr := true }
  | .stmt (.rangeStmt _ _ x _) =>
      (match pass.types x with
       | some .chan => ind
       | some .other => { ind with hasRange := true }
       | none => { ind with hasRange := true })
  | .stmt (.forStmt _ cond _ _) =>
      if cond.isNone then { ind with infiniteLoop := true } else ind
  | .expr (.call _ fn args) =>
      let ind1 :=
        match fn, args with
        | .identE f, [.identE a] =>
            if f.name = "close" ∧ a.name = chanName then
              { ind with hasClose := true }
            else ind
        | _, _ => ind
      (match fn with
       | .selector (.identE pkg) selName =>
           if pkg.name = "time" then
             if selName = "Sleep" then { ind1 with hasTimeSleep := true }
             else if selName = "NewTicker" ∨ selName = "Tick" then
               { ind1 with hasTimeTicker := true }
             else ind1
           else ind1
       | _ => ind1)
  | _ => ind

/-- Model of `extractIndicators` (`analyzer.go`): a single walk of the task body
applying `indicatorStep` at every node. -/
def extractIndicators (body : List Stmt) (chanName : String) (pass : Pass) :
    Indicators :=
  (stmtListNodes body).foldl (indicatorStep pass chanName) {}

/-- Model of `classify` (`analyzer.go`): safety gates in order, then the
decision cascade over the indicator vector.  Confidences are exact
rationals. -/
def classify (cp : ChannelProducer) (pass : Pass) : Pattern × ℚ :=
  match cp.funcLitBody with
  | none => (.Unknown, 0)
  | some body =>
    if containsMultiCaseSelect body then (.Unknown, 0)
    else if containsIOCalls body pass then (.Unknown, 0)
    else if rangesOverChannel body pass then (.Unknown, 0)
    else
      let ind := extractIndicators body cp.chanIdent.name pass
      if ind.hasRange && ind.hasClose then (.BoundedIterator, mkRat 92 100)
      else if ind.hasModulo && ind.hasIndexExpr && ind.infiniteLoop then
        (.RoundRobin, mkRat 90 100)
      else if ind.hasIncrement && ind.infiniteLoop && !ind.hasTimeSleep then
        (.IDGenerator, mkRat 95 100)
      else if ind.hasTimeTicker then (.RateLimiter, mkRat 78 100)
      else if ind.hasTimeSleep && ind.infiniteLoop then (.ChanTicker, mkRat 80 100)
      else if cp.sends.length == 1 && !ind.infiniteLoop && !ind.hasRange then
        (.Singleton, mkRat 70 100)
      else (.Unknown, 0)

/-- A reported diagnostic, kept as its components: the anchor position and
the message's variable parts (pattern, catalog fields, confidence). -/
structure Diagnostic where
  pos : Nat
  pattern : Pattern
  confidence : ℚ
  Replacement : String
  Speedup : String
deriving DecidableEq, Repr

/-- The per-producer body of `run`'s loop (`analyzer.go`): suppress when the
pattern is `Unknown` or the confidence is below 0.5, otherwise report one
diagnostic anchored at `cp.makePos`. -/
def emitFor (pass : Pass) (cp : ChannelProducer) : List Diagnostic :=
  let pc := classify cp pass
  if pc.1 = .Unknown ∨ pc.2 < mkRat 5 10 then []
  else
    [{ pos := cp.makePos, pattern := pc.1, confidence := pc.2,
       Replacement := (Registry pc.1).Replacement,
       Speedup := (Registry pc.1).Speedup }]

/-- The diagnostics `run` emits for one file, in order. -/
def runFile (pass : Pass) (file : List Decl) : List Diagnostic :=
  (detect pass file).flatMap (emitFor pass)

/-- Model of `run` (`analyzer.go`): all diagnostics of the pass, file by file. -/
def run (pass : Pass) : List Diagnostic :=
  pass.files.flatMap (runFile pass)

/-- The decision cascade as the specification words it (§4.2.3): seven
mutually exclusive arms evaluated in order, first match winning; the sixth
arm reads the producer's number of send sites.  Stated independently of
`classify`, from the spec's table, to be compared with it. -/
def specDecision (ind : Indicators) (sendCount : Nat) : Pattern × ℚ :=
  if ind.hasRange = true ∧ ind.hasClose = true then
    (.BoundedIterator, mkRat 92 100)
  else if ind.hasModulo = true ∧ ind.hasIndexExpr = true ∧ ind.infiniteLoop = true then
    (.RoundRobin, mkRat 90 100)
  else if ind.hasIncrement = true ∧ ind.infiniteLoop = true ∧ ind.hasTimeSleep = false then
    (.IDGenerator, mkRat 95 100)
  else if ind.hasTimeTicker = true then (.RateLimiter, mkRat 78 100)
  else if ind.hasTimeSleep = true ∧ ind.infiniteLoop = true then
    (.ChanTicker, mkRat 80 100)
  else if sendCount = 1 ∧ ind.infiniteLoop = false ∧ ind.hasRange = false then
    (.Singleton, mkRat 70 100)
  else (.Unknown, 0)

/-! ### Concrete fixtures for witnesses and counterexamples -/

/-- A pass with no recorded type information and no files. -/
def trivPass : Pass := ⟨[], fun _ => none, fun _ => none⟩

/-- The assignment `ch := make(chan int)`: LHS identifier at position 10, `make` call at
position 16. -/
def idGenAssign : Stmt :=
  Stmt.assign [Expr.identE ⟨"ch", 1, 10⟩]
    [Expr.call 16 (Expr.identE ⟨"make", 5, 16⟩) [Expr.chanTypeE Expr.otherE]]

/-- Task body of the IDGenerator example:
`var id int64; for \x7b id++; ch <- id \x7d`. -/
def idGenTaskBody : List Stmt :=
  [Stmt.otherStmt,
   Stmt.forStmt none none none
     [Stmt.incDec (Expr.identE ⟨"id", 3, 20⟩) true,
      Stmt.send 32 (Expr.identE ⟨"ch", 2, 30⟩) (Expr.identE ⟨"id", 4, 33⟩)]]

/-- The IDGenerator example function, as a one-declaration file. -/
def idGenFile : List Decl :=
  [Decl.funcDecl
    (some [idGenAssign,
           Stmt.goStmt (Expr.funcLit (some idGenTaskBody)) [],
           Stmt.ret [Expr.identE ⟨"ch", 6, 40⟩]])
    (some [Expr.chanTypeE Expr.otherE])]

/-- The producer `detect` extracts from `idGenFile` under `trivPass`. -/
def cpIdGen : ChannelProducer :=
  ⟨[Stmt.send 32 (Expr.identE ⟨"ch", 2, 30⟩) (Expr.identE ⟨"id", 4, 33⟩)],
   some idGenTaskBody, ⟨"ch", 1, 10⟩, none, 10, 0⟩

/-- The diagnostic reported for `idGenFile`. -/
def diagIdGen : Diagnostic :=
  ⟨10, .IDGenerator, mkRat 95 100, "atomic.AddInt64", "~38x"⟩

/-- A two-clause `select` statement: one communication clause and one
`default` clause. -/
def twoClauseSelect : Stmt :=
  Stmt.selectStmt [⟨some Stmt.otherStmt, []⟩, ⟨none, []⟩]

/-- A function body with the generator idiom AND a two-clause `select` at
the top level of the function, outside the spawned task. -/
def selOutsideBody : List Stmt :=
  [idGenAssign,
   Stmt.goStmt
     (Expr.funcLit (some [Stmt.send 32 (Expr.identE ⟨"ch", 2, 30⟩) Expr.otherE])) [],
   twoClauseSelect,
   Stmt.ret [Expr.identE ⟨"ch", 6, 40⟩]]

/-- The body `selOutsideBody` as a one-declaration file. -/
def selOutsideFile : List Decl :=
  [Decl.funcDecl (some selOutsideBody) (some [Expr.chanTypeE Expr.otherE])]

/-- A task body whose first statement is a two-clause `select`. -/
def selTaskBody : List Stmt :=
  [twoClauseSelect, Stmt.send 33 (Expr.identE ⟨"ch", 2, 30⟩) Expr.otherE]

/-- A producer whose task body is `selTaskBody`. -/
def cpSelTask : ChannelProducer :=
  ⟨[Stmt.send 33 (Expr.identE ⟨"ch", 2, 30⟩) Expr.otherE],
   some selTaskBody, ⟨"ch", 1, 10⟩, none, 10, 0⟩

/-- A channel-typed identifier occurrence that resolves to a local
variable, not a function parameter. -/
def localChan : Ident := ⟨"c", 7, 50⟩

/-- A pass recording `localChan`'s type as a channel and its object as a
non-parameter local variable. -/
def localChanPass : Pass :=
  ⟨[],
   fun e =>
     match e with
     | .identE i => if i.uid = 7 then some .chan else none
     | _ => none,
   fun i => if i.uid = 7 then some (.varObj false .chan) else none⟩

/-- A task body ranging over the local channel `localChan`. -/
def localChanLoopBody : List Stmt :=
  [Stmt.rangeStmt none none (Expr.identE localChan) []]

/-- First channel-creating assignment: `ch1 := make(chan int, 3)` at
position 10. -/
def firstMakeAssign : Stmt :=
  Stmt.assign [Expr.identE ⟨"ch1", 1, 10⟩]
    [Expr.call 16 (Expr.identE ⟨"make", 5, 16⟩)
      [Expr.chanTypeE Expr.otherE, Expr.basicLit .int ("3")]]

/-- Second channel-creating assignment: `ch2 := make(chan int, 5)` at
position 20. -/
def secondMakeAssign : Stmt :=
  Stmt.assign [Expr.identE ⟨"ch2", 8, 20⟩]
    [Expr.call 26 (Expr.identE ⟨"make", 9, 26⟩)
      [Expr.chanTypeE Expr.otherE, Expr.basicLit .int ("5")]]

/-- A function body with two valid channel-creating assignments; the
spawned task sends on the second channel. -/
def twoMakeBody : List Stmt :=
  [firstMakeAssign, secondMakeAssign,
   Stmt.goStmt
     (Expr.funcLit (some [Stmt.send 32 (Expr.identE ⟨"ch2", 2, 30⟩) Expr.otherE])) [],
   Stmt.ret [Expr.identE ⟨"ch2", 6, 40⟩]]

/-- The body `twoMakeBody` as a one-declaration file. -/
def twoMakeFile : List Decl :=
  [Decl.funcDecl (some twoMakeBody) (some [Expr.chanTypeE Expr.otherE])]

/-- The producer `detect` extracts from `twoMakeFile`: it carries the SECOND
assignment's channel, position and buffer size. -/
def cpCh2 : ChannelProducer :=
  ⟨[Stmt.send 32 (Expr.identE ⟨"ch2", 2, 30⟩) Expr.otherE],
   some [Stmt.send 32 (Expr.identE ⟨"ch2", 2, 30⟩) Expr.otherE],
   ⟨"ch2", 8, 20⟩, none, 20, 5⟩

/-- The assignment `ch := make(chan int, 0x10)`: a hexadecimal buffer literal. -/
def hexBufAssign : Stmt :=
  Stmt.assign [Expr.identE ⟨"ch", 1, 10⟩]
    [Expr.call 16 (Expr.identE ⟨"make", 5, 16⟩)
      [Expr.chanTypeE Expr.otherE, Expr.basicLit .int ("0x10")]]

/-- The assignment `hexBufAssign` with a sending task, as a one-declaration file. -/
def hexBufFile : List Decl :=
  [Decl.funcDecl
    (some [hexBufAssign,
           Stmt.goStmt
             (Expr.funcLit (some [Stmt.send 32 (Expr.identE ⟨"ch", 2, 30⟩) Expr.otherE])) []])
    (some [Expr.chanTypeE Expr.otherE])]

/-- A task body ranging over an identifier for which no type information is
recorded. -/
def rangeNoTypeBody : List Stmt :=
  [Stmt.rangeStmt none none (Expr.identE ⟨"xs", 9, 60⟩) []]

/-- A file like `idGenFile` whose function returns an arbitrary expression
instead of the created channel (the return statement's result list is the
parameter). -/
def returnAnythingFile (rets : List Expr) : List Decl :=
  [Decl.funcDecl
    (some [idGenAssign,
           Stmt.goStmt (Expr.funcLit (some idGenTaskBody)) [],
           Stmt.ret rets])
    (some [Expr.chanTypeE Expr.otherE])]

/-! ### Helper lemmas -/

/-- Unfolding `emitFor` when the classification is suppressed. -/
theorem emitFor_nil_of_unknown (pass : Pass) (cp : ChannelProducer)
    (h : (classify cp pass).1 = .Unknown ∨ (classify cp pass).2 < mkRat 5 10) :
    emitFor pass cp = [] := by
  simp only [emitFor]
  rw [if_pos h]

/-- Unfolding `emitFor` when the classification is reportable. -/
theorem emitFor_singleton_of_confident (pass : Pass) (cp : ChannelProducer)
    (h : ¬((classify cp pass).1 = .Unknown ∨ (classify cp pass).2 < mkRat 5 10)) :
    emitFor pass cp =
      [{ pos := cp.makePos, pattern := (classify cp pass).1,
         confidence := (classify cp pass).2,
         Replacement := (Registry (classify cp pass).1).Replacement,
         Speedup := (Registry (classify cp pass).1).Speedup }] := by
  simp only [emitFor]
  rw [if_neg h]

/-- The first safety gate: a firing multi-case-select gate forces
`(Unknown, 0)`. -/
theorem classify_unknown_of_multiCaseSelect (pass : Pass) (cp : ChannelProducer)
    (body : List Stmt) (hb : cp.funcLitBody = some body)
    (hsel : containsMultiCaseSelect body = true) :
    classify cp pass = (.Unknown, 0) := by
  simp [classify, hb, hsel]

/-- A select node with at least two clauses anywhere in the body makes
`containsMultiCaseSelect` true. -/
theorem containsMultiCaseSelect_of_mem (body : List Stmt)
    (clauses : List CommClause)
    (hmem : Node.stmt (Stmt.selectStmt clauses) ∈ stmtListNodes body)
    (hlen : 2 ≤ clauses.length) : containsMultiCaseSelect body = true :=
  List.any_eq_true.mpr ⟨_, hmem, decide_eq_true hlen⟩

/-- The step `indicatorStep` never clears `hasRange`. -/
theorem indicatorStep_hasRange_mono (pass : Pass) (nm : String)
    (ind : Indicators) (n : Node) (h : ind.hasRange = true) :
    (indicatorStep pass nm ind n).hasRange = true := by
  unfold indicatorStep
  repeat' split
  all_goals simp_all

/-- The indicator fold never clears `hasRange`. -/
theorem foldl_hasRange_mono (pass : Pass) (nm : String) (l : List Node)
    (ind : Indicators) (h : ind.hasRange = true) :
    (l.foldl (indicatorStep pass nm) ind).hasRange = true := by
  induction l generalizing ind with
  | nil => exact h
  | cons a t ih => exact ih _ (indicatorStep_hasRange_mono pass nm ind a h)

/-- If some node of the walk sets `hasRange` whatever the accumulator, the
fold's result has `hasRange`. -/
theorem foldl_hasRange_of_mem (pass : Pass) (nm : String) (l : List Node)
    (ind : Indicators) (n : Node) (hn : n ∈ l)
    (hset : ∀ ind', (indicatorStep pass nm ind' n).hasRange = true) :
    (l.foldl (indicatorStep pass nm) ind).hasRange = true := by
  induction l generalizing ind with
  | nil => cases hn
  | cons a t ih =>
    rcases List.mem_cons.mp hn with rfl | hmem
    · exact foldl_hasRange_mono pass nm t _ (hset ind)
    · exact ih _ hmem

/-! ### Claims -/

/-- Claim C2: every diagnostic the engine emits has a non-Unknown pattern
and confidence at least 0.5; whenever `classify` returns `Unknown` or a
confidence below 0.5 for a producer, no diagnostic is emitted for it. -/
theorem diagnostics_confident_and_known :
    (∀ (pass : Pass) (file : List Decl) (d : Diagnostic),
        d ∈ runFile pass file →
        d.pattern ≠ Pattern.Unknown ∧ mkRat 5 10 ≤ d.confidence) ∧
    (∀ (pass : Pass) (cp : ChannelProducer),
        (classify cp pass).1 = Pattern.Unknown ∨
          (classify cp pass).2 < mkRat 5 10 →
        emitFor pass cp = []) := by
  constructor
  · intro pass file d hd
    rw [runFile, List.mem_flatMap] at hd
    obtain ⟨cp, _, hmem⟩ := hd
    by_cases h :
        (classify cp pass).1 = Pattern.Unknown ∨
          (classify cp pass).2 < mkRat 5 10
    · rw [emitFor_nil_of_unknown pass cp h] at hmem
      cases hmem
    · rw [emitFor_singleton_of_confident pass cp h,
        List.mem_singleton] at hmem
      subst hmem
      push_neg at h
      exact ⟨h.1, h.2⟩
  · intro pass cp h
    exact emitFor_nil_of_unknown pass cp h

/-- Witness for C2: the IDGenerator diagnostic is confident and known, and a
producer with a nil task body (classified Unknown) emits nothing. -/
theorem diagnostics_confident_and_known_witness :
    (diagIdGen.pattern ≠ Pattern.Unknown ∧ mkRat 5 10 ≤ diagIdGen.confidence) ∧
    emitFor trivPass { cpIdGen with funcLitBody := none } = [] :=
  ⟨diagnostics_confident_and_known.1 trivPass idGenFile diagIdGen (by decide),
   diagnostics_confident_and_known.2 trivPass { cpIdGen with funcLitBody := none }
     (Or.inl rfl)⟩

/-- Claim C3, counterexample: a function whose body contains a two-clause
`select` at the top level of the function (outside the spawned task) still
gets a diagnostic, refuting "regardless of where in the function body the
selection statement appears". -/
theorem select_outside_task_emits :
    containsMultiCaseSelect selOutsideBody = true ∧
    runFile trivPass selOutsideFile =
      [⟨10, Pattern.Singleton, mkRat 70 100, "sync.Once + value field", "~19x"⟩] :=
  ⟨rfl, rfl⟩

/-- Claim C3 (amended): a channel-selection statement with two or more
alternatives anywhere in the SPAWNED TASK's body makes the engine classify
the producer `(Unknown, 0)` and emit no diagnostic for it; a selection
statement in the function body outside the spawned task does not suppress
diagnostics. -/
theorem multiCaseSelect_in_task_suppresses (pass : Pass) (cp : ChannelProducer)
    (body : List Stmt) (clauses : List CommClause)
    (hb : cp.funcLitBody = some body)
    (hmem : Node.stmt (Stmt.selectStmt clauses) ∈ stmtListNodes body)
    (hlen : 2 ≤ clauses.length) :
    classify cp pass = (Pattern.Unknown, 0) ∧ emitFor pass cp = [] := by
  have hsel := containsMultiCaseSelect_of_mem body clauses hmem hlen
  have hcl := classify_unknown_of_multiCaseSelect pass cp body hb hsel
  exact ⟨hcl, emitFor_nil_of_unknown pass cp (Or.inl (by rw [hcl]))⟩

/-- Witness for the amended C3. -/
theorem multiCaseSelect_in_task_suppresses_witness :
    classify cpSelTask trivPass = (Pattern.Unknown, 0) ∧
    emitFor trivPass cpSelTask = [] :=
  multiCaseSelect_in_task_suppresses trivPass cpSelTask selTaskBody
    [⟨some Stmt.otherStmt, []⟩, ⟨none, []⟩] rfl
    (List.mem_cons_self _ _) (by decide)

/-- Claim C9: a `default` clause counts toward the multi-case gate's
alternative count: a `select` with one communication case plus a `default`
clause in the task body makes the gate true, the producer is classified
`(Unknown, 0)`, and no diagnostic is emitted for it. -/
theorem default_clause_counts (pass : Pass) (cp : ChannelProducer)
    (body b1 b2 : List Stmt) (s : Stmt)
    (hb : cp.funcLitBody = some body)
    (hmem :
      Node.stmt (Stmt.selectStmt [CommClause.mk (some s) b1, CommClause.mk none b2])
        ∈ stmtListNodes body) :
    containsMultiCaseSelect body = true ∧
    classify cp pass = (Pattern.Unknown, 0) ∧
    emitFor pass cp = [] := by
  have hsel := containsMultiCaseSelect_of_mem body _ hmem (by simp)
  have hcl := classify_unknown_of_multiCaseSelect pass cp body hb hsel
  exact ⟨hsel, hcl, emitFor_nil_of_unknown pass cp (Or.inl (by rw [hcl]))⟩

/-- Witness for C9: `cpSelTask`'s select has one communication clause and
one default clause. -/
theorem default_clause_counts_witness :
    containsMultiCaseSelect selTaskBody = true ∧
    classify cpSelTask trivPass = (Pattern.Unknown, 0) ∧
    emitFor trivPass cpSelTask = [] :=
  default_clause_counts trivPass cpSelTask selTaskBody [] [] Stmt.otherStmt rfl
    (List.mem_cons_self _ _)

/-- Claim C8: when the type query returns no answer for a loop's iteration
target, `hasRange` is still set (the target counts as a non-channel), while
that loop does not trip the pipeline-stage gate. -/
theorem missing_type_info_asymmetry (pass : Pass) (chanName : String)
    (body : List Stmt) (key val : Option Expr) (x : Expr) (rb : List Stmt)
    (hmem : Node.stmt (Stmt.rangeStmt key val x rb) ∈ stmtListNodes body)
    (h : pass.types x = none) :
    (extractIndicators body chanName pass).hasRange = true ∧
    rangeGateHit pass (Node.stmt (Stmt.rangeStmt key val x rb)) = false := by
  constructor
  · exact foldl_hasRange_of_mem pass chanName _ _ _ hmem
      (fun ind' => by simp [indicatorStep, h])
  · cases x <;> simp [rangeGateHit, h]

/-- Witness for C8, on a one-loop task body with no type information. -/
theorem missing_type_info_asymmetry_witness :
    (extractIndicators rangeNoTypeBody ("ch") trivPass).hasRange = true ∧
    rangeGateHit trivPass
      (Node.stmt (Stmt.rangeStmt none none (Expr.identE ⟨"xs", 9, 60⟩) [])) = false :=
  missing_type_info_asymmetry trivPass ("ch") rangeNoTypeBody none none
    (Expr.identE ⟨"xs", 9, 60⟩) [] (List.mem_cons_self _ _) rfl

/-- Claim C10: the Detector never checks that the created channel is
returned: for any result list of the function's return statement, the
producer is still emitted with the same channel name, creation site, buffer
size and send count. -/
theorem detect_ignores_return_value (pass : Pass) (rets : List Expr) :
    (detect pass (returnAnythingFile rets)).map
      (fun cp => (cp.chanIdent, cp.makePos, cp.bufSize, cp.sends.length)) =
      [(⟨"ch", 1, 10⟩, 10, 0, 1)] := rfl

/-- Claim C4, counterexample: ranging over a channel-typed identifier that
resolves to a LOCAL variable (`isParam = false`), not a function parameter,
trips the pipeline-stage gate, refuting "a channel-typed identifier that is
not a function parameter does not trip the gate". -/
theorem rangeGate_trips_on_local_channel :
    localChanPass.objectOf localChan = some (GoObject.varObj false GoType.chan) ∧
    rangesOverChannel localChanLoopBody localChanPass = true :=
  ⟨rfl, rfl⟩

/-- Claim C4 (amended): the pipeline-stage gate returns TRUE exactly when
the body contains a loop whose iteration target is a bare identifier whose
recorded type has channel underlying type and which resolves to some object
— whether or not that object is a function parameter; targets reached via
field access (not bare identifiers) never trip the gate. -/
theorem rangesOverChannel_characterization (body : List Stmt) (pass : Pass) :
    rangesOverChannel body pass = true ↔
      ∃ (key val : Option Expr) (i : Ident) (rb : List Stmt),
        Node.stmt (Stmt.rangeStmt key val (Expr.identE i) rb) ∈ stmtListNodes body ∧
        pass.types (Expr.identE i) = some GoType.chan ∧
        (pass.objectOf i).isSome = true := by
  rw [rangesOverChannel, List.any_eq_true]
  constructor
  · rintro ⟨n, hn, hp⟩
    rw [rangeGateHit.eq_def] at hp
    split at hp
    · next key val i rb =>
        refine ⟨key, val, i, rb, hn, ?_⟩
        revert hp
        split
        · next ht => intro hp; exact ⟨ht, hp⟩
        · intro hp; cases hp
    · cases hp
  · rintro ⟨key, val, i, rb, hmem, ht, ho⟩
    exact ⟨_, hmem, by simp [rangeGateHit, ht, ho]⟩

/-- Lemma: `getLast?` of a cons, in `Option.or` form. -/
theorem getLast?_cons_or {α : Type _} (a : α) (l : List α) :
    (a :: l).getLast? = l.getLast?.or (some a) := by
  induction l generalizing a with
  | nil => rfl
  | cons b t ih =>
    rw [List.getLast?_cons_cons, ih b, Option.or_assoc]
    rfl

/-- One step of the top-level scan, first component: a valid
channel-creating assignment overwrites, everything else keeps. -/
theorem scanStep_fst (acc : Option (Ident × Nat × Int) × List (Expr × List Expr))
    (s : Stmt) : (scanStep acc s).1 = (extractMakeChan s).or acc.1 := by
  cases s <;> try rfl
  case assign lhs rhs =>
    cases h : extractMakeChan (Stmt.assign lhs rhs) <;>
      simp [scanStep, h, Option.or]

/-- The scan's recorded assignment is the LAST valid channel-creating
assignment of the statement list. -/
theorem scanTopLevel_fst (stmts : List Stmt) :
    (scanTopLevel stmts).1 = (stmts.filterMap extractMakeChan).getLast? := by
  have aux : ∀ (l : List Stmt)
      (acc : Option (Ident × Nat × Int) × List (Expr × List Expr)),
      (l.foldl scanStep acc).1 =
        ((l.filterMap extractMakeChan).getLast?).or acc.1 := by
    intro l
    induction l with
    | nil => intro acc; simp
    | cons s t ih =>
      intro acc
      rw [List.foldl_cons, ih, List.filterMap_cons]
      cases h : extractMakeChan s
      · rw [scanStep_fst, h, Option.none_or]
      · rw [scanStep_fst, h, getLast?_cons_or, Option.or_assoc]
  rw [scanTopLevel, aux, Option.or_none]

/-- Claim C5, counterexample: with two valid channel-creating assignments at
the top level, the emitted producer's channel name, creation site and buffer
size come from the SECOND (`ch2`, 20, 5), not from the first valid
assignment (`ch1`, 10, 3), which is the head of the body. -/
theorem detect_takes_last_make_assign :
    (detect trivPass twoMakeFile).map
      (fun cp => (cp.chanIdent.name, cp.makePos, cp.bufSize)) = [("ch2", 20, 5)] ∧
    extractMakeChan firstMakeAssign = some (⟨"ch1", 1, 10⟩, 10, 3) ∧
    twoMakeBody.head? = some firstMakeAssign :=
  ⟨rfl, rfl, rfl⟩

/-- Claim C5 (amended): the Detector considers only the LAST valid
channel-creating assignment: every emitted producer's channel identifier,
creation site and buffer size are the last valid channel-creating
assignment's, in statement order, of some function declaration of the
file. -/
theorem producer_from_last_make_assign (pass : Pass) (file : List Decl)
    (cp : ChannelProducer) (h : cp ∈ detect pass file) :
    ∃ (body : List Stmt) (results : List Expr),
      Decl.funcDecl (some body) (some results) ∈ file ∧
      (body.filterMap extractMakeChan).getLast? =
        some (cp.chanIdent, cp.makePos, cp.bufSize) := by
  rw [detect, List.mem_flatMap] at h
  obtain ⟨decl, hdecl, h⟩ := h
  split at h
  · next body results =>
    split at h
    · split at h
      · next chanVar makePos bufSize fn args heq =>
        split at h
        · next flBody =>
          simp only [] at h
          by_cases hse : (collectSends flBody chanVar.name).isEmpty = true
          · rw [if_pos hse] at h
            cases h
          · rw [if_neg hse] at h
            rw [List.mem_singleton] at h
            subst h
            refine ⟨body, results, hdecl, ?_⟩
            have h1 : (scanTopLevel body).1 = some (chanVar, makePos, bufSize) := by
              rw [heq]
            rw [scanTopLevel_fst] at h1
            exact h1
        · cases h
      · cases h
    · cases h
  · cases h

/-- Witness for the amended C5, on `twoMakeFile`. -/
theorem producer_from_last_make_assign_witness :
    ∃ (body : List Stmt) (results : List Expr),
      Decl.funcDecl (some body) (some results) ∈ twoMakeFile ∧
      (body.filterMap extractMakeChan).getLast? =
        some (cpCh2.chanIdent, cpCh2.makePos, cpCh2.bufSize) :=
  producer_from_last_make_assign trivPass twoMakeFile cpCh2
    (List.mem_singleton.mpr rfl)

/-- Claim C6, counterexample: the only diagnostic for `idGenFile` is
anchored at position 10, the assignment statement's position (its LHS
identifier), while the allocation call of `idGenAssign` sits at position 16
— refuting "anchored at the source position of the allocation call". -/
theorem diagnostic_anchor_not_call_pos :
    (runFile trivPass idGenFile).map Diagnostic.pos = [10] ∧
    idGenAssign = Stmt.assign [Expr.identE ⟨"ch", 1, 10⟩]
      [Expr.call 16 (Expr.identE ⟨"make", 5, 16⟩) [Expr.chanTypeE Expr.otherE]] ∧
    (10 : Nat) ≠ 16 :=
  ⟨rfl, rfl, by decide⟩

/-- Claim C6 (amended): every emitted diagnostic is anchored at the
producer's creation-site field, and that field is always the position of the
channel-creating ASSIGNMENT statement — the position of its left-hand-side
identifier (`s.Pos()`), not the allocation call's own position and not a
send site's. -/
theorem diagnostic_anchored_at_assign_pos :
    (∀ (pass : Pass) (file : List Decl) (d : Diagnostic),
        d ∈ runFile pass file → ∃ cp ∈ detect pass file, d.pos = cp.makePos) ∧
    (∀ (s : Stmt) (i : Ident) (p : Nat) (b : Int),
        extractMakeChan s = some (i, p, b) → p = i.pos) := by
  constructor
  · intro pass file d hd
    rw [runFile, List.mem_flatMap] at hd
    obtain ⟨cp, hcp, hmem⟩ := hd
    refine ⟨cp, hcp, ?_⟩
    by_cases h :
        (classify cp pass).1 = Pattern.Unknown ∨
          (classify cp pass).2 < mkRat 5 10
    · rw [emitFor_nil_of_unknown pass cp h] at hmem
      cases hmem
    · rw [emitFor_singleton_of_confident pass cp h, List.mem_singleton] at hmem
      subst hmem
      rfl
  · intro s i p b h
    rw [extractMakeChan.eq_def] at h
    split at h
    · next id f args =>
      split at h
      · split at h
        · simp only [Option.some.injEq, Prod.mk.injEq] at h
          obtain ⟨h1, h2, _⟩ := h
          rw [← h2, ← h1]
        · cases h
      · cases h
    · cases h

/-- Witness for the amended C6. -/
theorem diagnostic_anchored_at_assign_pos_witness :
    (∃ cp ∈ detect trivPass idGenFile, diagIdGen.pos = cp.makePos) ∧
    (10 : Nat) = (⟨"ch", 1, 10⟩ : Ident).pos :=
  ⟨diagnostic_anchored_at_assign_pos.1 trivPass idGenFile diagIdGen (by decide),
   diagnostic_anchored_at_assign_pos.2 idGenAssign ⟨"ch", 1, 10⟩ 10 0 rfl⟩

/-- Each step of the decimal fold does not decrease the accumulator. -/
theorem le_digits_foldl :
    ∀ (l : List Char) (k : Nat),
      k ≤ l.foldl (fun n c => n * 10 + (c.toNat - '0'.toNat)) k := by
  intro l
  induction l with
  | nil => intro k; exact Nat.le_refl k
  | cons c t ih =>
    intro k
    rw [List.foldl_cons]
    exact Nat.le_trans (by omega) (ih (k * 10 + (c.toNat - '0'.toNat)))

/-- The reduction `wrap64` is the identity on the signed 64-bit range. -/
theorem wrap64_eq_self (x : Int) (h0 : 0 ≤ x) (h : x < 2 ^ 63) : wrap64 x = x := by
  have e1 : (2 : Int) ^ 63 = 9223372036854775808 := by norm_num
  have e2 : (2 : Int) ^ 64 = 18446744073709551616 := by norm_num
  rw [e1] at h
  unfold wrap64
  rw [e1, e2, Int.emod_eq_of_lt (by omega) (by omega)]
  omega

/-- Go's wrapping digit fold agrees with the `Nat` fold of `String.toNat?`
on digit-only character lists whose running value stays below `2 ^ 63`: no
step wraps, because the accumulator never decreases. -/
theorem digits_foldl_wrap64 :
    ∀ (l : List Char), (∀ c ∈ l, c.isDigit = true) → ∀ k : Nat,
      l.foldl (fun n c => n * 10 + (c.toNat - '0'.toNat)) k < 2 ^ 63 →
      l.foldl
        (fun b c => wrap64 (b * 10 + ((c.toNat : Int) - ('0'.toNat : Int))))
        (k : Int) =
        ((l.foldl (fun n c => n * 10 + (c.toNat - '0'.toNat)) k : Nat) : Int) := by
  intro l
  induction l with
  | nil => intro _ k _; rfl
  | cons c t ih =>
    intro hl k hbound
    have hc : c.isDigit = true := hl c (List.mem_cons_self _ _)
    have h48 : '0'.toNat ≤ c.toNat := by
      simp [Char.isDigit] at hc
      exact hc.1
    have h48' : 48 ≤ c.toNat := h48
    rw [List.foldl_cons] at hbound
    rw [List.foldl_cons, List.foldl_cons]
    have hfit : k * 10 + (c.toNat - '0'.toNat) < 2 ^ 63 :=
      Nat.lt_of_le_of_lt (le_digits_foldl t _) hbound
    have hcast : (k : Int) * 10 + ((c.toNat : Int) - ('0'.toNat : Int)) =
        ((k * 10 + (c.toNat - '0'.toNat) : Nat) : Int) := by
      push_cast
      omega
    have hw : wrap64 ((k * 10 + (c.toNat - '0'.toNat) : Nat) : Int) =
        ((k * 10 + (c.toNat - '0'.toNat) : Nat) : Int) := by
      apply wrap64_eq_self
      · exact Int.natCast_nonneg _
      · exact_mod_cast hfit
    rw [hcast, hw]
    exact ih (fun c' h' => hl c' (List.mem_cons_of_mem _ h')) _ hbound

/-- Claim C7, counterexample: a hexadecimal buffer literal `0x10` yields
buffer size 7210 (the blind digit fold over `'0','x','1','0'`), which is
neither 0 (the claim's "equals 0 in every other case") nor 16; and even a
digits-only decimal literal is not always its value: `18446744073709551616`
(`2 ^ 64`) wraps in the 64-bit accumulator to 0. -/
theorem bufSize_hex_literal_misparsed :
    (detect trivPass hexBufFile).map ChannelProducer.bufSize = [7210] ∧
    parseBufSize [Expr.chanTypeE Expr.otherE, Expr.basicLit .int ("0x10")] = 7210 ∧
    (7210 : Int) ≠ 0 ∧ (7210 : Int) ≠ 16 ∧
    parseBufSize [Expr.chanTypeE Expr.otherE,
      Expr.basicLit .int ("18446744073709551616")] = 0 ∧
    (0 : Int) ≠ 18446744073709551616 :=
  ⟨rfl, rfl, by decide, by decide, rfl, by decide⟩

/-- Claim C7 (amended): the buffer-size field equals the value of the
allocation call's second argument when that argument is a digits-only
decimal integer literal whose value fits below `2 ^ 63` (the signed 64-bit
`int` in which the fold accumulates; larger values wrap); it equals 0 when
there is no second argument or the second argument is not an integer basic
literal; but for an integer literal whose text contains non-digit
characters (hex, octal, binary or underscore spellings) the field is the
blind digit fold `buf*10 + (c - '0')` over the literal's text, not 0.  The
fourth conjunct ties `extractMakeChan`'s buffer field to `parseBufSize`. -/
theorem bufSize_parse_spec :
    (∀ (args : List Expr) (v : String) (n : Nat),
        args.get? 1 = some (Expr.basicLit LitKind.int v) →
        v.toNat? = some n → n < 2 ^ 63 → parseBufSize args = (n : Int)) ∧
    (∀ (args : List Expr), args.get? 1 = none → parseBufSize args = 0) ∧
    (∀ (args : List Expr) (e : Expr), args.get? 1 = some e →
        (∀ v, e ≠ Expr.basicLit LitKind.int v) → parseBufSize args = 0) ∧
    (∀ (lhs : List Expr) (cpos : Nat) (fn : Expr) (args : List Expr)
        (i : Ident) (p : Nat) (b : Int),
        extractMakeChan (Stmt.assign lhs [Expr.call cpos fn args]) = some (i, p, b) →
        b = parseBufSize args) := by
  refine ⟨?_, ?_, ?_, ?_⟩
  · intro args v n h1 h2 hn
    have hv : v.isNat = true ∧
        n = v.foldl (fun n c => n * 10 + (c.toNat - '0'.toNat)) 0 := by
      rw [show v.toNat? =
          if v.isNat then
            some (v.foldl (fun n c => n * 10 + (c.toNat - '0'.toNat)) 0)
          else none from rfl] at h2
      split at h2
      · next hisnat =>
          refine ⟨hisnat, ?_⟩
          simp only [Option.some.injEq] at h2
          exact h2.symm
      · cases h2
    have hd : ∀ c ∈ v.data, c.isDigit = true := by
      have hall : v.all Char.isDigit = true := by
        have h' := hv.1
        rw [show v.isNat = (!v.isEmpty && v.all Char.isDigit) from rfl,
          Bool.and_eq_true] at h'
        exact h'.2
      rw [String.all_eq] at hall
      exact fun c hc => List.all_eq_true.mp hall c hc
    have hbound :
        v.data.foldl (fun n c => n * 10 + (c.toNat - '0'.toNat)) 0 < 2 ^ 63 := by
      rw [← String.foldl_eq]
      exact hv.2 ▸ hn
    have hfold := digits_foldl_wrap64 v.data hd 0 hbound
    rw [Nat.cast_zero] at hfold
    simp only [parseBufSize, h1]
    rw [hv.2, String.foldl_eq]
    exact hfold
  · intro args h
    simp only [parseBufSize, h]
  · intro args e h hne
    cases e with
    | basicLit k v =>
        cases k with
        | int => exact absurd rfl (hne v)
        | other => simp only [parseBufSize, h]
    | identE i => simp only [parseBufSize, h]
    | selector x sel => simp only [parseBufSize, h]
    | call cpos f as => simp only [parseBufSize, h]
    | binary op l r => simp only [parseBufSize, h]
    | indexE x ix => simp only [parseBufSize, h]
    | chanTypeE elem => simp only [parseBufSize, h]
    | funcLit fb => simp only [parseBufSize, h]
    | otherE => simp only [parseBufSize, h]
  · intro lhs cpos fn args i p b h
    rw [extractMakeChan.eq_def] at h
    split at h
    · next id f args' heq =>
      split at h
      · split at h
        · simp only [Option.some.injEq, Prod.mk.injEq] at h
          obtain ⟨_, _, h3⟩ := h
          simp only [Stmt.assign.injEq, List.cons.injEq, Expr.call.injEq,
            and_true] at heq
          obtain ⟨_, _, _, ha⟩ := heq
          rw [← h3, ha]
        · cases h
      · cases h
    · cases h

/-- Bridge: `String.toNat?`, restated over the string's character list (the
position-based `String` loops do not reduce in the kernel; this bridge lets
concrete instances be decided). -/
theorem toNat?_eq_data (s : String) :
    s.toNat? =
      if (!s.isEmpty && s.data.all Char.isDigit) then
        some (s.data.foldl (fun n c => n * 10 + (c.toNat - '0'.toNat)) 0)
      else none := by
  rw [show s.toNat? =
      if s.isNat then
        some (s.foldl (fun n c => n * 10 + (c.toNat - '0'.toNat)) 0)
      else none from rfl,
    String.foldl_eq,
    show s.isNat = (!s.isEmpty && s.all Char.isDigit) from rfl,
    String.all_eq]

/-- Witness for the amended C7, exercising all four conjuncts. -/
theorem bufSize_parse_spec_witness :
    parseBufSize [Expr.chanTypeE Expr.otherE, Expr.basicLit .int ("64")] = (64 : Int) ∧
    parseBufSize [Expr.chanTypeE Expr.otherE] = 0 ∧
    parseBufSize [Expr.chanTypeE Expr.otherE, Expr.otherE] = 0 ∧
    (3 : Int) = parseBufSize [Expr.chanTypeE Expr.otherE, Expr.basicLit .int ("3")] :=
  ⟨bufSize_parse_spec.1 _ ("64") 64 rfl (by rw [toNat?_eq_data]; decide)
     (by norm_num),
   bufSize_parse_spec.2.1 _ rfl,
   bufSize_parse_spec.2.2.1 _ Expr.otherE rfl (fun v h => by cases h),
   bufSize_parse_spec.2.2.2 [Expr.identE ⟨"ch1", 1, 10⟩] 16
     (Expr.identE ⟨"make", 5, 16⟩)
     [Expr.chanTypeE Expr.otherE, Expr.basicLit .int ("3")]
     ⟨"ch1", 1, 10⟩ 10 3 rfl⟩

/-- Claim C1: for every producer whose task body passes all three safety
gates, `classify` evaluates exactly the specification's seven decision arms
in order, first match winning: (BoundedIterator, 0.92) for hasRange∧hasClose;
(RoundRobin, 0.90) for hasModulo∧hasIndexExpr∧infiniteLoop;
(IDGenerator, 0.95) for hasIncrement∧infiniteLoop∧¬hasTimeSleep;
(RateLimiter, 0.78) for hasTimeTicker; (ChanTicker, 0.80) for
hasTimeSleep∧infiniteLoop; (Singleton, 0.70) for exactly one send site with
¬infiniteLoop∧¬hasRange; and (Unknown, 0.0) otherwise — as captured by
`specDecision`, transcribed from the spec's table. -/
theorem classify_matches_spec_cascade (pass : Pass) (cp : ChannelProducer)
    (body : List Stmt) (hb : cp.funcLitBody = some body)
    (h1 : containsMultiCaseSelect body = false)
    (h2 : containsIOCalls body pass = false)
    (h3 : rangesOverChannel body pass = false) :
    classify cp pass =
      specDecision (extractIndicators body cp.chanIdent.name pass)
        cp.sends.length := by
  simp only [classify, hb, h1, h2, h3, Bool.false_eq_true, if_false]
  generalize extractIndicators body cp.chanIdent.name pass = ind
  obtain ⟨i1, i2, i3, i4, i5, i6, i7, i8⟩ := ind
  simp only [specDecision, Bool.and_eq_true, Bool.not_eq_true', beq_iff_eq,
    and_assoc]

/-- Witness for C1, on the IDGenerator producer (all gates pass). -/
theorem classify_matches_spec_cascade_witness :
    classify cpIdGen trivPass =
      specDecision (extractIndicators idGenTaskBody cpIdGen.chanIdent.name trivPass)
        cpIdGen.sends.length :=
  classify_matches_spec_cascade trivPass cpIdGen idGenTaskBody rfl rfl rfl rfl

end Chanopt
